import Mathlib

/-!
Shallow embedding of the Vulkan renderer core of the kengine repository:
device selection (vulkan_device.c), swapchain negotiation (vulkan_swapchain.c),
command-buffer state tracking (vulkan_command_buffer.c) and the backend
bootstrap sequence (vulkan_backend.c).  Driver calls are modelled by explicit
result-code inputs; logging is modelled as a list of structured entries and
driver-facing side effects as a list of actions.
-/

namespace Kengine

/-- Log severity levels of the logging collaborator (KFATAL .. KDEBUG). -/
inductive LogLevel
  | fatal
  | error
  | warn
  | info
  | debug
deriving DecidableEq

/-- One structured log message.  VK_CHECK entries carry the numeric result
code together with the file and line of the failing call. -/
structure LogEntry where
  level : LogLevel
  msg : String
  code : Int
  file : String
  line : Nat
deriving DecidableEq

/-- Driver-facing side effects performed by the renderer core. -/
inductive Action
  | enumerate_instance_layers
  | create_instance
  | create_debug_messenger
  | create_surface
  | probe_device
  | create_logical_device
  | create_swapchain
  | create_renderpass
  | allocate_command_buffers
deriving DecidableEq

/-- Control-flow outcome of a checked driver call: the VK_CHECK macro in
vulkan_types.inl only logs, so the interesting question is whether it can
abort or force an early return. -/
inductive ControlEffect
  | continue_
  | abort
  | early_return
deriving DecidableEq

def VK_SUCCESS : Int := 0

def UINT32_MAX : Nat := 4294967295

def VK_FORMAT_B8G8R8A8_SRGB : Nat := 50

def VK_COLOR_SPACE_SRGB_NONLINEAR_KHR : Nat := 0

def VK_PHYSICAL_DEVICE_TYPE_DISCRETE_GPU : Nat := 2

def VK_QUEUE_GRAPHICS_BIT : Nat := 1

def VK_QUEUE_COMPUTE_BIT : Nat := 2

def VK_QUEUE_TRANSFER_BIT : Nat := 4

/-- The VK_CHECK macro of vulkan_types.inl: compare the result of the
wrapped expression against VK_SUCCESS; on mismatch append an ERROR log entry
carrying the numeric code, file and line.  There is no branch that aborts,
asserts, or returns from the enclosing function. -/
def vk_check (result : Int) (file : String) (line : Nat) (log : List LogEntry) :
    ControlEffect × List LogEntry :=
  if result ≠ VK_SUCCESS then
    (ControlEffect.continue_,
     log ++ [{ level := LogLevel.error, msg := "Vulkan error", code := result,
               file := file, line := line }])
  else
    (ControlEffect.continue_, log)

/-- VkExtent2D. -/
structure Extent2D where
  width : Nat
  height : Nat
deriving DecidableEq

/-- The fields of VkSurfaceCapabilitiesKHR that the core reads. -/
structure SurfaceCapabilities where
  minImageCount : Nat
  maxImageCount : Nat
  currentExtent : Extent2D
  minImageExtent : Extent2D
  maxImageExtent : Extent2D
deriving DecidableEq

/-- VkSurfaceFormatKHR. -/
structure SurfaceFormat where
  format : Nat
  colorSpace : Nat
deriving DecidableEq

/-- vulkan_swapchain_support_info: surface capabilities plus the two
variable-length support lists; list lengths model format_count and
present_mode_count. -/
structure vulkan_swapchain_support_info where
  capabilities : SurfaceCapabilities
  formats : List SurfaceFormat
  present_modes : List Nat
deriving DecidableEq

/-- A zeroed support record, as after kzero_memory. -/
def empty_support : vulkan_swapchain_support_info :=
  { capabilities :=
      { minImageCount := 0, maxImageCount := 0, currentExtent := ⟨0, 0⟩,
        minImageExtent := ⟨0, 0⟩, maxImageExtent := ⟨0, 0⟩ },
    formats := [], present_modes := [] }

/-- One queue family of a candidate accelerator: the capability bitmask
(VkQueueFamilyProperties.queueFlags), the hardware queue count, and the
outcome of the per-family vkGetPhysicalDeviceSurfaceSupportKHR query
(none models a failed query, which the prober tolerates and skips). -/
structure QueueFamily where
  queueFlags : Nat
  queueCount : Nat
  present_query : Option Bool
deriving DecidableEq

def supports_graphics (f : QueueFamily) : Bool :=
  f.queueFlags &&& VK_QUEUE_GRAPHICS_BIT ≠ 0

def supports_compute (f : QueueFamily) : Bool :=
  f.queueFlags &&& VK_QUEUE_COMPUTE_BIT ≠ 0

def supports_transfer (f : QueueFamily) : Bool :=
  f.queueFlags &&& VK_QUEUE_TRANSFER_BIT ≠ 0

/-- The specialization score the prober accumulates for a family: one point
per capability bit among graphics, compute and transfer. -/
def family_transfer_score (f : QueueFamily) : Int :=
  (if supports_graphics f then 1 else 0) +
  (if supports_compute f then 1 else 0) +
  (if supports_transfer f then 1 else 0)

/-- A candidate physical accelerator together with the responses the driver
gives for it.  The surface_* fields model the outcomes of the swapchain
support queries (none models a failed query), and available_extensions the
result of vkEnumerateDeviceExtensionProperties. -/
structure PhysicalDevice where
  deviceType : Nat
  samplerAnisotropy : Bool
  props_id : Nat
  features_id : Nat
  memory_id : Nat
  queue_families : List QueueFamily
  surface_caps : Option SurfaceCapabilities
  surface_formats : Option (List SurfaceFormat)
  surface_present_modes : Option (List Nat)
  available_extensions : List String
deriving DecidableEq

/-- vulkan_physical_device_requirements. -/
structure vulkan_physical_device_requirements where
  graphics : Bool
  present : Bool
  compute : Bool
  transfer : Bool
  device_extension_names : Option (List String)
  sampler_anisotropy : Bool
  discrete_gpu : Bool
deriving DecidableEq

/-- vulkan_physical_device_queue_family_info, with -1 as the
index-not-found sentinel exactly as in the source. -/
structure vulkan_physical_device_queue_family_info where
  graphics_family_index : Int
  present_family_index : Int
  compute_family_index : Int
  transfer_family_index : Int
deriving DecidableEq

/-- vulkan_device_query_swapchain_support: zero the counts and lists, then
fill them step by step from the three surface queries, stopping (but not
failing the caller) at the first query that fails.  The capabilities field
is only overwritten when the capabilities query succeeds. -/
def vulkan_device_query_swapchain_support (d : PhysicalDevice)
    (old : vulkan_swapchain_support_info) : vulkan_swapchain_support_info :=
  let s0 : vulkan_swapchain_support_info :=
    { capabilities := old.capabilities, formats := [], present_modes := [] }
  match d.surface_caps with
  | none => s0
  | some caps =>
    let s1 := { s0 with capabilities := caps }
    match d.surface_formats with
    | none => s1
    | some fs =>
      let s2 := { s1 with formats := fs }
      match d.surface_present_modes with
      | none => s2
      | some pm => { s2 with present_modes := pm }

/-- The body of the queue-family loop in physical_device_meets_requirements:
record the last family seen for graphics, compute and present, and track the
transfer family with the lowest specialization score seen so far, where an
equal score also updates (the comparison in the source is with <=). -/
def scan_queue_family (require_present surface_valid : Bool) (i : Nat)
    (f : QueueFamily) (qi : vulkan_physical_device_queue_family_info)
    (min_transfer_score : Int) :
    vulkan_physical_device_queue_family_info × Int :=
  let s1 : Int := if supports_graphics f then 1 else 0
  let qi1 := if supports_graphics f then
      { qi with graphics_family_index := (i : Int) } else qi
  let s2 : Int := if supports_compute f then s1 + 1 else s1
  let qi2 := if supports_compute f then
      { qi1 with compute_family_index := (i : Int) } else qi1
  let tstep :=
    if supports_transfer f then
      (if s2 + 1 ≤ min_transfer_score then
        ({ qi2 with transfer_family_index := (i : Int) }, s2 + 1)
      else (qi2, min_transfer_score))
    else (qi2, min_transfer_score)
  let qi3 := tstep.1
  let m1 := tstep.2
  let qi4 :=
    if require_present && surface_valid then
      (match f.present_query with
       | some b => if b then { qi3 with present_family_index := (i : Int) } else qi3
       | none => qi3)
    else qi3
  (qi4, m1)

/-- The queue-family loop itself, scanning families in ascending index
order starting from index i. -/
def scan_queue_families (require_present surface_valid : Bool) (i : Nat)
    (fs : List QueueFamily) (qi : vulkan_physical_device_queue_family_info)
    (min_transfer_score : Int) :
    vulkan_physical_device_queue_family_info × Int :=
  match fs with
  | [] => (qi, min_transfer_score)
  | f :: rest =>
    let st := scan_queue_family require_present surface_valid i f qi min_transfer_score
    scan_queue_families require_present surface_valid (i + 1) rest st.1 st.2

/-- physical_device_meets_requirements: verdict, populated queue-family
info, and the swapchain-support record as left behind in the out parameter
(which in select_physical_device aliases context.device.swapchain_support). -/
def physical_device_meets_requirements (d : PhysicalDevice)
    (surface_valid : Bool) (req : vulkan_physical_device_requirements)
    (old_support : vulkan_swapchain_support_info) :
    Bool × vulkan_physical_device_queue_family_info × vulkan_swapchain_support_info :=
  let qi0 : vulkan_physical_device_queue_family_info := ⟨-1, -1, -1, -1⟩
  if req.discrete_gpu && !(d.deviceType == VK_PHYSICAL_DEVICE_TYPE_DISCRETE_GPU) then
    (false, qi0, old_support)
  else if d.queue_families.length == 0 then
    (false, qi0, old_support)
  else
    let scanres := scan_queue_families req.present surface_valid 0 d.queue_families qi0 255
    let qi := scanres.1
    if req.graphics && qi.graphics_family_index == -1 then
      (false, qi, old_support)
    else if req.present && qi.present_family_index == -1 then
      (false, qi, old_support)
    else if req.compute && qi.compute_family_index == -1 then
      (false, qi, old_support)
    else if req.transfer && qi.transfer_family_index == -1 then
      (false, qi, old_support)
    else
      let support := vulkan_device_query_swapchain_support d old_support
      if support.formats.length < 1 || support.present_modes.length < 1 then
        (false, qi, { support with formats := [], present_modes := [] })
      else
        match req.device_extension_names with
        | none =>
          if req.sampler_anisotropy && !d.samplerAnisotropy then
            (false, qi, support)
          else
            (true, qi, support)
        | some exts =>
          if d.available_extensions.length == 0 then
            (false, qi, support)
          else if exts.any (fun e => !(d.available_extensions.contains e)) then
            (false, qi, support)
          else if req.sampler_anisotropy && !d.samplerAnisotropy then
            (false, qi, support)
          else
            (true, qi, support)

/-- vulkan_device: the Device record owned by the context. -/
structure vulkan_device where
  physical_device : Option PhysicalDevice
  logical_device : Option Nat
  swapchain_support : vulkan_swapchain_support_info
  graphics_queue_index : Int
  present_queue_index : Int
  transfer_queue_index : Int
  graphics_queue : Option (Int × Nat)
  present_queue : Option (Int × Nat)
  transfer_queue : Option (Int × Nat)
  properties : Nat
  features : Nat
  memory : Nat
deriving DecidableEq

/-- The fixed requirements descriptor built inside select_physical_device:
graphics, present, compute, transfer and anisotropy required, the swapchain
extension required, discrete GPU not required. -/
def default_device_requirements : vulkan_physical_device_requirements :=
  { graphics := true, present := true, compute := true, transfer := true,
    device_extension_names := some ["VK_KHR_swapchain"],
    sampler_anisotropy := true, discrete_gpu := false }

/-- Whether a candidate passes the fixed-requirements probe.  The verdict of
physical_device_meets_requirements does not depend on the prior contents of
the out swapchain-support record, so the probe is evaluated against a
zeroed one. -/
def device_passes (surface_valid : Bool) (c : PhysicalDevice) : Bool :=
  (physical_device_meets_requirements c surface_valid default_device_requirements
    empty_support).1

/-- The candidate loop of select_physical_device: probe each candidate in
order (the probe writes through the swapchain-support out pointer on every
iteration); on the first passing candidate cache the handle, the three queue
indices, and properties, features, memory, and stop scanning. -/
def select_physical_device_loop (surface_valid : Bool)
    (cands : List PhysicalDevice) (dev : vulkan_device) :
    Bool × vulkan_device × List Action :=
  match cands with
  | [] => (false, dev, [])
  | c :: rest =>
    let r := physical_device_meets_requirements c surface_valid
      default_device_requirements dev.swapchain_support
    let dev1 := { dev with swapchain_support := r.2.2 }
    if r.1 then
      (true,
       { dev1 with
         physical_device := some c,
         graphics_queue_index := r.2.1.graphics_family_index,
         present_queue_index := r.2.1.present_family_index,
         transfer_queue_index := r.2.1.transfer_family_index,
         properties := c.props_id,
         features := c.features_id,
         memory := c.memory_id },
       [Action.probe_device])
    else
      let rest_result := select_physical_device_loop surface_valid rest dev1
      (rest_result.1, rest_result.2.1, Action.probe_device :: rest_result.2.2)

/-- select_physical_device: fail immediately when no physical device is
enumerated, otherwise run the candidate loop. -/
def select_physical_device (surface_valid : Bool)
    (cands : List PhysicalDevice) (dev : vulkan_device) :
    Bool × vulkan_device × List Action :=
  if cands.length == 0 then (false, dev, [])
  else select_physical_device_loop surface_valid cands dev

/-- The queue-create index list built in vulkan_device_create: start from
the graphics family, append the present family only when it differs from
graphics, and append the transfer family only when it differs from
graphics.  No comparison between present and transfer is made. -/
def device_queue_indices (graphics_queue_index present_queue_index
    transfer_queue_index : Int) : List Int :=
  let present_shares_graphics_queue := graphics_queue_index == present_queue_index
  let transfer_shares_graphics_queue := graphics_queue_index == transfer_queue_index
  let indices := [graphics_queue_index]
  let indices := if !present_shares_graphics_queue then
      indices ++ [present_queue_index] else indices
  if !transfer_shares_graphics_queue then
    indices ++ [transfer_queue_index] else indices

/-- vulkan_device_create: select a physical device (fatal on failure),
build the queue-create list, create the logical device with the driver
result given as input (fatal on failure), then retrieve the three queue
handles at index 0 within their families. -/
def vulkan_device_create (surface_valid : Bool) (cands : List PhysicalDevice)
    (create_device_result : Int) (dev : vulkan_device) :
    Bool × vulkan_device × List Action × List LogEntry :=
  let sel := select_physical_device surface_valid cands dev
  if !sel.1 then
    (false, sel.2.1, sel.2.2,
     [{ level := LogLevel.fatal,
        msg := "Failed to select a suitable Vulkan physical device.",
        code := 0, file := "", line := 0 }])
  else
    let dev1 := sel.2.1
    let _indices := device_queue_indices dev1.graphics_queue_index
      dev1.present_queue_index dev1.transfer_queue_index
    if create_device_result ≠ VK_SUCCESS then
      (false, dev1, sel.2.2 ++ [Action.create_logical_device],
       [{ level := LogLevel.fatal, msg := "Failed to create logical device.",
          code := create_device_result, file := "", line := 0 }])
    else
      (true,
       { dev1 with
         logical_device := some 1,
         graphics_queue := some (dev1.graphics_queue_index, 0),
         present_queue := some (dev1.present_queue_index, 0),
         transfer_queue := some (dev1.transfer_queue_index, 0) },
       sel.2.2 ++ [Action.create_logical_device], [])

/-- vulkan_swapchain: chosen format, negotiated extent and image count, the
live swapchain handle, and the parallel image and image-view lists. -/
structure vulkan_swapchain where
  image_format : SurfaceFormat
  extent : Extent2D
  image_count : Nat
  swapchain : Option Nat
  images : List Nat
  image_views : List Nat
deriving DecidableEq

/-- Surface-format choice in create (vulkan_swapchain.c): the first format
equal to 8-bit BGRA sRGB in nonlinear sRGB color space if one is offered,
otherwise formats[0]. -/
def choose_surface_format (formats : List SurfaceFormat) : SurfaceFormat :=
  match formats.find? (fun f =>
      f.format == VK_FORMAT_B8G8R8A8_SRGB &&
      f.colorSpace == VK_COLOR_SPACE_SRGB_NONLINEAR_KHR) with
  | some f => f
  | none => formats.headD ⟨0, 0⟩

/-- Extent choice in create: use the surface current extent unless its width
is the UINT32_MAX sentinel, in which case clamp the requested width and
height into the [minImageExtent, maxImageExtent] box coordinatewise. -/
def choose_swapchain_extent (caps : SurfaceCapabilities) (width height : Nat) :
    Extent2D :=
  if caps.currentExtent.width ≠ UINT32_MAX then caps.currentExtent
  else
    let w :=
      if width < caps.minImageExtent.width then caps.minImageExtent.width
      else if width > caps.maxImageExtent.width then caps.maxImageExtent.width
      else width
    let h :=
      if height < caps.minImageExtent.height then caps.minImageExtent.height
      else if height > caps.maxImageExtent.height then caps.maxImageExtent.height
      else height
    ⟨w, h⟩

/-- Image-count choice in create: minImageCount + 1, clamped down to
maxImageCount when the latter is nonzero (zero means unbounded). -/
def choose_swapchain_image_count (caps : SurfaceCapabilities) : Nat :=
  let image_count := caps.minImageCount + 1
  if caps.maxImageCount > 0 && image_count > caps.maxImageCount then
    caps.maxImageCount
  else image_count

/-- create / vulkan_swapchain_create: negotiate format, extent and image
count (all written into the out record before the driver call), then create
the swapchain with the given driver result.  On a non-success result a FATAL
entry is logged and the function returns; being void, it reports nothing to
its caller. -/
def vulkan_swapchain_create (support : vulkan_swapchain_support_info)
    (width height : Nat) (driver_result : Int)
    (out_swapchain : vulkan_swapchain) : vulkan_swapchain × List LogEntry :=
  let chosen_format := choose_surface_format support.formats
  let sc1 := { out_swapchain with image_format := chosen_format }
  let extent := choose_swapchain_extent support.capabilities width height
  let sc2 := { sc1 with extent := extent }
  let image_count := choose_swapchain_image_count support.capabilities
  let sc3 := { sc2 with image_count := image_count }
  if driver_result ≠ VK_SUCCESS then
    (sc3, [{ level := LogLevel.fatal, msg := "Failed to create Vulkan swapchain.",
             code := driver_result, file := "", line := 0 }])
  else
    ({ sc3 with swapchain := some 1 },
     [{ level := LogLevel.info, msg := "Vulkan swapchain created successfully.",
        code := 0, file := "", line := 0 }])

/-- vulkan_command_buffer_state (vulkan_types.inl). -/
inductive vulkan_command_buffer_state
  | ready
  | recording
  | submitted
  | not_allocated
  | in_render_pass
  | recording_ended
deriving DecidableEq

/-- vulkan_command_buffer: driver handle plus state tag. -/
structure vulkan_command_buffer where
  handle : Option Nat
  state : vulkan_command_buffer_state
deriving DecidableEq

/-- vulkan_command_buffer_allocate: zero the record, request one buffer from
the pool, and leave the state tag at NOT_ALLOCATED (the source sets
NOT_ALLOCATED immediately before the VK_CHECKed driver call and never sets
READY afterwards). -/
def vulkan_command_buffer_allocate (handle : Nat) : vulkan_command_buffer :=
  { handle := some handle, state := vulkan_command_buffer_state.not_allocated }

/-- command_buffer_free: release the handle and reset the state tag, only
when a handle is present. -/
def vulkan_command_buffer_free (cb : vulkan_command_buffer) :
    vulkan_command_buffer :=
  if cb.handle.isSome then
    { handle := none, state := vulkan_command_buffer_state.not_allocated }
  else cb

/-- command_buffer_begin: compose the usage-flag bitmask from the three
booleans, issue the VK_CHECKed begin call, and set the state tag to
RECORDING.  The current state tag is never consulted. -/
def command_buffer_begin (cb : vulkan_command_buffer)
    (is_single_use is_render_pass_continue is_simultaneous_use : Bool) :
    vulkan_command_buffer × Nat :=
  let flags :=
    (if is_single_use then 1 else 0) |||
    (if is_render_pass_continue then 2 else 0) |||
    (if is_simultaneous_use then 4 else 0)
  ({ cb with state := vulkan_command_buffer_state.recording }, flags)

/-- vulkan_command_buffer_end: issue the VK_CHECKed end call and set the
state tag to READY.  The current state tag is never consulted. -/
def vulkan_command_buffer_end (cb : vulkan_command_buffer) :
    vulkan_command_buffer :=
  { cb with state := vulkan_command_buffer_state.ready }

/-- vulkan_command_buffer_update_submitted: set the state tag to SUBMITTED. -/
def vulkan_command_buffer_update_submitted (cb : vulkan_command_buffer) :
    vulkan_command_buffer :=
  { cb with state := vulkan_command_buffer_state.submitted }

/-- vulkan_command_buffer_reset: issue the VK_CHECKed reset call and set the
state tag to READY.  The current state tag is never consulted. -/
def vulkan_command_buffer_reset (cb : vulkan_command_buffer) :
    vulkan_command_buffer :=
  { cb with state := vulkan_command_buffer_state.ready }

/-- vulkan_renderpass, reduced to the fields the embedded operations
touch. -/
structure vulkan_renderpass where
  handle : Option Nat
  state : Nat
deriving DecidableEq

/-- vulkan_context: the top-level aggregate of the renderer backend. -/
structure vulkan_context where
  framebuffer_width : Nat
  framebuffer_height : Nat
  instance_handle : Option Nat
  surface : Option Nat
  device : vulkan_device
  swapchain : vulkan_swapchain
  main_renderpass : vulkan_renderpass
  graphics_command_buffers : List vulkan_command_buffer
  image_index : Nat
  current_frame : Nat
  recreating_swapchain : Bool
deriving DecidableEq

/-- vulkan_renderer_backend_on_resized: store the new framebuffer size and
raise the recreating_swapchain flag.  The body contains no driver call, so
the action list is empty. -/
def vulkan_renderer_backend_on_resized (ctx : vulkan_context)
    (width height : Nat) : vulkan_context × List Action :=
  ({ ctx with framebuffer_width := width, framebuffer_height := height,
              recreating_swapchain := true }, [])

/-- The validation layers requested in diagnostic builds. -/
def required_validation_layer_names : List String :=
  ["VK_LAYER_KHRONOS_validation"]

/-- Driver-side inputs of one run of vulkan_renderer_backend_bootstrap. -/
structure InitInputs where
  debug_build : Bool
  available_layers : List String
  instance_result : Int
  surface_ok : Bool
  candidates : List PhysicalDevice
  create_device_result : Int
  swapchain_result : Int
deriving DecidableEq

/-- The backend initialization entry point, named Bootstrap in the spec:
in a diagnostic build, verify every
required validation layer against the enumerated available-layer list and
fail fatally on a missing one before the instance is created; then create
the instance (VK_CHECKed), the debug messenger (diagnostic builds), the
surface (fatal on failure), and the device (fatal on failure), then create
the swapchain, the render pass, and the command buffers.  The swapchain
create call, being void, is not checked: initialization continues past it
and returns TRUE. -/
def vulkan_renderer_backend_bootstrap (inp : InitInputs)
    (ctx : vulkan_context) :
    Bool × vulkan_context × List LogEntry × List Action :=
  if inp.debug_build &&
      required_validation_layer_names.any
        (fun l => !(inp.available_layers.contains l)) then
    (false, ctx,
     [{ level := LogLevel.fatal, msg := "Required validation layer is missing",
        code := 0, file := "", line := 0 }],
     [Action.enumerate_instance_layers])
  else
    let acts0 :=
      (if inp.debug_build then [Action.enumerate_instance_layers] else []) ++
      [Action.create_instance]
    let log0 := (vk_check inp.instance_result "vulkan_backend.c" 222 []).2
    let acts1 := acts0 ++
      (if inp.debug_build then [Action.create_debug_messenger] else [])
    if !inp.surface_ok then
      (false, ctx,
       log0 ++ [{ level := LogLevel.fatal, msg := "Failed to create Vulkan surface.",
                  code := 0, file := "", line := 0 }],
       acts1 ++ [Action.create_surface])
    else
      let ctx1 := { ctx with instance_handle := some 1, surface := some 1 }
      let acts2 := acts1 ++ [Action.create_surface]
      let dres := vulkan_device_create true inp.candidates
        inp.create_device_result ctx1.device
      if !dres.1 then
        (false, { ctx1 with device := dres.2.1 },
         log0 ++ dres.2.2.2 ++
           [{ level := LogLevel.fatal, msg := "Failed to create Vulkan device.",
              code := 0, file := "", line := 0 }],
         acts2 ++ dres.2.2.1)
      else
        let ctx2 := { ctx1 with device := dres.2.1 }
        let screate := vulkan_swapchain_create ctx2.device.swapchain_support
          ctx2.framebuffer_width ctx2.framebuffer_height inp.swapchain_result
          ctx2.swapchain
        let ctx3 := { ctx2 with swapchain := screate.1 }
        let ctx4 := { ctx3 with main_renderpass := ⟨some 1, 0⟩ }
        let cbs := List.replicate ctx4.swapchain.image_count
          (vulkan_command_buffer_allocate 1)
        let ctx5 := { ctx4 with graphics_command_buffers := cbs }
        (true, ctx5,
         log0 ++ dres.2.2.2 ++ screate.2 ++
           [{ level := LogLevel.info, msg := "Vulkan renderer initialized successfully.",
              code := 0, file := "", line := 0 }],
         acts2 ++ dres.2.2.1 ++
           [Action.create_swapchain, Action.create_renderpass,
            Action.allocate_command_buffers])

/-- The transfer-tracking projection of the queue-family loop: the pair of
the tracked transfer family index and the running minimum score.  Related to
scan_queue_families by scan_families_transfer below. -/
def transfer_scan (fs : List QueueFamily) (i : Nat) (cur m : Int) : Int × Int :=
  match fs with
  | [] => (cur, m)
  | f :: rest =>
    if supports_transfer f = true ∧ family_transfer_score f ≤ m then
      transfer_scan rest (i + 1) (i : Int) (family_transfer_score f)
    else
      transfer_scan rest (i + 1) cur m

/-! Concrete fixtures used by witnesses and counterexamples. -/

/-- Default queue family used with List.getD. -/
def default_family : QueueFamily :=
  { queueFlags := 0, queueCount := 0, present_query := none }

/-- Default candidate used with List.getD. -/
def default_candidate : PhysicalDevice :=
  { deviceType := 0, samplerAnisotropy := false, props_id := 0, features_id := 0,
    memory_id := 0, queue_families := [], surface_caps := none,
    surface_formats := none, surface_present_modes := none,
    available_extensions := [] }

/-- A queue family supporting graphics, compute and transfer, with present
support. -/
def good_family : QueueFamily :=
  { queueFlags := 7, queueCount := 1, present_query := some true }

/-- A dedicated transfer-only queue family with present support. -/
def transfer_only_family : QueueFamily :=
  { queueFlags := 4, queueCount := 1, present_query := some true }

/-- Surface capabilities whose current extent is the undefined sentinel. -/
def sentinel_caps : SurfaceCapabilities :=
  { minImageCount := 2, maxImageCount := 8,
    currentExtent := ⟨UINT32_MAX, UINT32_MAX⟩,
    minImageExtent := ⟨100, 100⟩, maxImageExtent := ⟨200, 200⟩ }

/-- A zeroed swapchain record, as before first creation. -/
def test_swapchain : vulkan_swapchain :=
  { image_format := ⟨0, 0⟩, extent := ⟨0, 0⟩, image_count := 0,
    swapchain := none, images := [], image_views := [] }

/-- A swapchain-support record for the sentinel capabilities. -/
def sentinel_support : vulkan_swapchain_support_info :=
  { capabilities := sentinel_caps, formats := [⟨50, 0⟩], present_modes := [2] }

/-- A candidate that passes the fixed-requirements probe. -/
def good_candidate : PhysicalDevice :=
  { deviceType := 1, samplerAnisotropy := true, props_id := 10, features_id := 11,
    memory_id := 12, queue_families := [good_family],
    surface_caps := some sentinel_caps,
    surface_formats := some [⟨50, 0⟩],
    surface_present_modes := some [2],
    available_extensions := ["VK_KHR_swapchain"] }

/-- A candidate rejected at the swapchain-support check: its format list is
empty, so the probe reaches and overwrites the support record and then
fails. -/
def bad_candidate : PhysicalDevice :=
  { good_candidate with surface_formats := some [] }

/-- A candidate with two transfer-capable queue families of equal (minimal)
specialization score, exposing the tie-break direction. -/
def c2_candidate : PhysicalDevice :=
  { good_candidate with
    queue_families := [transfer_only_family, transfer_only_family] }

/-- A freshly zeroed Device record, as before selection. -/
def test_device : vulkan_device :=
  { physical_device := none, logical_device := none,
    swapchain_support := empty_support,
    graphics_queue_index := -1, present_queue_index := -1,
    transfer_queue_index := -1, graphics_queue := none, present_queue := none,
    transfer_queue := none, properties := 0, features := 0, memory := 0 }

/-- A freshly zeroed context, as before initialization. -/
def test_context : vulkan_context :=
  { framebuffer_width := 800, framebuffer_height := 600,
    instance_handle := none, surface := none, device := test_device,
    swapchain := test_swapchain, main_renderpass := ⟨none, 0⟩,
    graphics_command_buffers := [], image_index := 0, current_frame := 0,
    recreating_swapchain := false }

/-- Initialization inputs in which every driver step succeeds except the
swapchain create call. -/
def c7_inputs : InitInputs :=
  { debug_build := false, available_layers := [], instance_result := 0,
    surface_ok := true, candidates := [good_candidate],
    create_device_result := 0, swapchain_result := -4 }

/-- Initialization inputs for a diagnostic build whose enumerated
available-layer list is empty. -/
def c8_inputs : InitInputs :=
  { debug_build := true, available_layers := [], instance_result := 0,
    surface_ok := true, candidates := [good_candidate],
    create_device_result := 0, swapchain_result := 0 }

/-! Theorems. -/

theorem query_support_fields_indep (d : PhysicalDevice)
    (old : vulkan_swapchain_support_info) :
    (vulkan_device_query_swapchain_support d old).formats
        = (vulkan_device_query_swapchain_support d empty_support).formats ∧
      (vulkan_device_query_swapchain_support d old).present_modes
        = (vulkan_device_query_swapchain_support d empty_support).present_modes := by
  obtain ⟨dt, sa, pid, fid, mid, qfs, caps, fmts, pms, exts⟩ := d
  cases caps <;> cases fmts <;> cases pms <;>
    exact ⟨rfl, rfl⟩

theorem prod_fst_ite_congr {c : Prop} [Decidable c] {A B : Type}
    {x y u v : A × B} (hx : x.1 = u.1) (hy : y.1 = v.1) :
    (if c then x else y).1 = (if c then u else v).1 := by
  by_cases h : c
  · rw [if_pos h, if_pos h]; exact hx
  · rw [if_neg h, if_neg h]; exact hy

/-- The pass/fail verdict of the prober does not depend on the prior
contents of the swapchain-support out record. -/
theorem meets_requirements_fst_indep (d : PhysicalDevice) (sv : Bool)
    (req : vulkan_physical_device_requirements)
    (old : vulkan_swapchain_support_info) :
    (physical_device_meets_requirements d sv req old).1
      = (physical_device_meets_requirements d sv req empty_support).1 := by
  obtain ⟨dt, sa, pid, fid, mid, qfs, caps, fmts, pms, exts⟩ := d
  obtain ⟨rg, rp, rc, rt, rexts, rsa, rdg⟩ := req
  cases caps <;> cases fmts <;> cases pms <;> cases rexts <;>
    (unfold physical_device_meets_requirements
     dsimp only [vulkan_device_query_swapchain_support]
     repeat' (first | rfl | apply prod_fst_ite_congr))

theorem select_loop_no_pass (sv : Bool) :
    ∀ (cands : List PhysicalDevice) (dev : vulkan_device),
    (∀ c ∈ cands, device_passes sv c = false) →
    (select_physical_device_loop sv cands dev).1 = false ∧
    (select_physical_device_loop sv cands dev).2.1.physical_device
      = dev.physical_device ∧
    (select_physical_device_loop sv cands dev).2.1.graphics_queue_index
      = dev.graphics_queue_index ∧
    (select_physical_device_loop sv cands dev).2.1.present_queue_index
      = dev.present_queue_index ∧
    (select_physical_device_loop sv cands dev).2.1.transfer_queue_index
      = dev.transfer_queue_index ∧
    (select_physical_device_loop sv cands dev).2.1.properties = dev.properties ∧
    (select_physical_device_loop sv cands dev).2.1.features = dev.features ∧
    (select_physical_device_loop sv cands dev).2.1.memory = dev.memory ∧
    (select_physical_device_loop sv cands dev).2.2
      = List.replicate cands.length Action.probe_device := by
  intro cands
  induction cands with
  | nil =>
    intro dev h
    exact ⟨rfl, rfl, rfl, rfl, rfl, rfl, rfl, rfl, rfl⟩
  | cons c rest ih =>
    intro dev h
    have hc : device_passes sv c = false := h c (List.mem_cons_self c rest)
    have hfst : (physical_device_meets_requirements c sv
        default_device_requirements dev.swapchain_support).1 = false := by
      rw [meets_requirements_fst_indep]
      exact hc
    have ihres := ih
      { dev with swapchain_support := (physical_device_meets_requirements c sv
          default_device_requirements dev.swapchain_support).2.2 }
      (fun x hx => h x (List.mem_cons_of_mem c hx))
    unfold select_physical_device_loop
    dsimp only
    rw [if_neg (by rw [hfst]; exact Bool.false_ne_true)]
    obtain ⟨h1, h2, h3, h4, h5, h6, h7, h8, h9⟩ := ihres
    refine ⟨h1, h2, h3, h4, h5, h6, h7, h8, ?_⟩
    rw [h9]
    rfl

theorem select_loop_first_pass (sv : Bool) :
    ∀ (cands : List PhysicalDevice) (i : Nat) (dev : vulkan_device),
    i < cands.length →
    device_passes sv (cands.getD i default_candidate) = true →
    (∀ j, j < i → device_passes sv (cands.getD j default_candidate) = false) →
    (select_physical_device_loop sv cands dev).1 = true ∧
    (select_physical_device_loop sv cands dev).2.1.physical_device
      = some (cands.getD i default_candidate) ∧
    (select_physical_device_loop sv cands dev).2.2
      = List.replicate (i + 1) Action.probe_device := by
  intro cands
  induction cands with
  | nil =>
    intro i dev hi
    exact absurd hi (by simp)
  | cons c rest ih =>
    intro i dev hi hpass hbefore
    cases i with
    | zero =>
      have hfst : (physical_device_meets_requirements c sv
          default_device_requirements dev.swapchain_support).1 = true := by
        rw [meets_requirements_fst_indep]
        simpa using hpass
      unfold select_physical_device_loop
      dsimp only
      rw [if_pos hfst]
      exact ⟨rfl, rfl, rfl⟩
    | succ j =>
      have hc : device_passes sv c = false := by
        have := hbefore 0 (Nat.succ_pos j)
        simpa using this
      have hfst : (physical_device_meets_requirements c sv
          default_device_requirements dev.swapchain_support).1 = false := by
        rw [meets_requirements_fst_indep]
        exact hc
      have ihres := ih j
        { dev with swapchain_support := (physical_device_meets_requirements c sv
            default_device_requirements dev.swapchain_support).2.2 }
        (by simpa using hi)
        (by simpa using hpass)
        (fun k hk => by
          have := hbefore (k + 1) (Nat.succ_lt_succ hk)
          simpa using this)
      unfold select_physical_device_loop
      dsimp only
      rw [if_neg (by rw [hfst]; exact Bool.false_ne_true)]
      obtain ⟨h1, h2, h3⟩ := ihres
      refine ⟨h1, by simpa using h2, ?_⟩
      rw [h3]
      rfl

theorem scan_step_transfer (rp sv : Bool) (i : Nat) (f : QueueFamily)
    (qi : vulkan_physical_device_queue_family_info) (m : Int) :
    ((scan_queue_family rp sv i f qi m).1.transfer_family_index,
     (scan_queue_family rp sv i f qi m).2)
    = (if supports_transfer f = true ∧ family_transfer_score f ≤ m
       then ((i : Int), family_transfer_score f)
       else (qi.transfer_family_index, m)) := by
  obtain ⟨qg, qp, qc, qt⟩ := qi
  by_cases hg : supports_graphics f = true <;>
  by_cases hc : supports_compute f = true <;>
  by_cases ht : supports_transfer f = true <;>
  rcases hpq : f.present_query with _ | b <;>
  simp [scan_queue_family, family_transfer_score, hg, hc, ht, hpq] <;>
  split_ifs <;> simp_all

/-- The transfer components of the queue-family loop coincide with
transfer_scan. -/
theorem scan_families_transfer (rp sv : Bool) :
    ∀ (fs : List QueueFamily) (i : Nat)
      (qi : vulkan_physical_device_queue_family_info) (m : Int),
    ((scan_queue_families rp sv i fs qi m).1.transfer_family_index,
     (scan_queue_families rp sv i fs qi m).2)
    = transfer_scan fs i qi.transfer_family_index m := by
  intro fs
  induction fs with
  | nil => intro i qi m; rfl
  | cons f rest ih =>
    intro i qi m
    have hstep := scan_step_transfer rp sv i f qi m
    show ((scan_queue_families rp sv (i + 1) rest
        (scan_queue_family rp sv i f qi m).1
        (scan_queue_family rp sv i f qi m).2).1.transfer_family_index,
      (scan_queue_families rp sv (i + 1) rest
        (scan_queue_family rp sv i f qi m).1
        (scan_queue_family rp sv i f qi m).2).2)
      = transfer_scan (f :: rest) i qi.transfer_family_index m
    rw [ih (i + 1) (scan_queue_family rp sv i f qi m).1
      (scan_queue_family rp sv i f qi m).2]
    by_cases hcond : supports_transfer f = true ∧ family_transfer_score f ≤ m
    · rw [if_pos hcond] at hstep
      have h1 : (scan_queue_family rp sv i f qi m).1.transfer_family_index
          = (i : Int) := congrArg Prod.fst hstep
      have h2 : (scan_queue_family rp sv i f qi m).2 = family_transfer_score f :=
        congrArg Prod.snd hstep
      rw [h1, h2]
      show transfer_scan rest (i + 1) (i : Int) (family_transfer_score f)
        = transfer_scan (f :: rest) i qi.transfer_family_index m
      rw [transfer_scan, if_pos hcond]
    · rw [if_neg hcond] at hstep
      have h1 : (scan_queue_family rp sv i f qi m).1.transfer_family_index
          = qi.transfer_family_index := congrArg Prod.fst hstep
      have h2 : (scan_queue_family rp sv i f qi m).2 = m :=
        congrArg Prod.snd hstep
      rw [h1, h2]
      show transfer_scan rest (i + 1) qi.transfer_family_index m
        = transfer_scan (f :: rest) i qi.transfer_family_index m
      rw [transfer_scan, if_neg hcond]

theorem transfer_scan_min_le (fs : List QueueFamily) :
    ∀ (i : Nat) (cur m : Int),
    (transfer_scan fs i cur m).2 ≤ m ∧
    (∀ j, j < fs.length →
      supports_transfer (fs.getD j default_family) = true →
      (transfer_scan fs i cur m).2
        ≤ family_transfer_score (fs.getD j default_family)) := by
  induction fs with
  | nil =>
    intro i cur m
    exact ⟨le_refl m, fun j hj => absurd hj (by simp)⟩
  | cons f rest ih =>
    intro i cur m
    rw [transfer_scan]
    by_cases hcond : supports_transfer f = true ∧ family_transfer_score f ≤ m
    · rw [if_pos hcond]
      obtain ⟨hm, hall⟩ := ih (i + 1) (i : Int) (family_transfer_score f)
      refine ⟨hm.trans hcond.2, ?_⟩
      intro j hj ht
      cases j with
      | zero => simpa using hm
      | succ k =>
        exact hall k (by simpa using hj) (by simpa using ht)
    · rw [if_neg hcond]
      obtain ⟨hm, hall⟩ := ih (i + 1) cur m
      refine ⟨hm, ?_⟩
      intro j hj ht
      cases j with
      | zero =>
        simp only [List.getD_cons_zero] at ht
        have hscore : ¬ family_transfer_score f ≤ m :=
          fun hle => hcond ⟨ht, hle⟩
        simp only [List.getD_cons_zero]
        exact hm.trans (not_le.mp hscore).le
      | succ k =>
        exact hall k (by simpa using hj) (by simpa using ht)

theorem transfer_scan_characterization (fs : List QueueFamily) :
    ∀ (i : Nat) (cur m : Int),
    ((transfer_scan fs i cur m).1 = cur ∧ (transfer_scan fs i cur m).2 = m ∧
      (∀ j, j < fs.length →
        supports_transfer (fs.getD j default_family) = true →
        ¬ family_transfer_score (fs.getD j default_family) ≤ m)) ∨
    (∃ j, j < fs.length ∧
      supports_transfer (fs.getD j default_family) = true ∧
      (transfer_scan fs i cur m).1 = ((i + j : Nat) : Int) ∧
      (transfer_scan fs i cur m).2
        = family_transfer_score (fs.getD j default_family) ∧
      (∀ k, k < fs.length → j < k →
        supports_transfer (fs.getD k default_family) = true →
        ¬ family_transfer_score (fs.getD k default_family)
          ≤ (transfer_scan fs i cur m).2)) := by
  induction fs with
  | nil =>
    intro i cur m
    exact Or.inl ⟨rfl, rfl, fun j hj => absurd hj (by simp)⟩
  | cons f rest ih =>
    intro i cur m
    rw [transfer_scan]
    by_cases hcond : supports_transfer f = true ∧ family_transfer_score f ≤ m
    · rw [if_pos hcond]
      rcases ih (i + 1) (i : Int) (family_transfer_score f) with
        ⟨e1, e2, hall⟩ | ⟨j, hj, ht, e1, e2, htail⟩
      · refine Or.inr ⟨0, by simp, by simpa using hcond.1, ?_, ?_, ?_⟩
        · rw [e1]; norm_num
        · rw [e2]; simp
        · intro k hk hk0 hkt
          match k, hk0 with
          | k + 1, _ =>
            rw [e2]
            exact hall k (by simpa using hk) (by simpa using hkt)
      · refine Or.inr ⟨j + 1, by simpa using hj, by simpa using ht, ?_, ?_, ?_⟩
        · rw [e1]
          congr 1
          omega
        · rw [e2]; simp
        · intro k hk hkj hkt
          match k, hkj with
          | k + 1, _ =>
            exact htail k (by simpa using hk) (by omega) (by simpa using hkt)
    · rw [if_neg hcond]
      rcases ih (i + 1) cur m with
        ⟨e1, e2, hall⟩ | ⟨j, hj, ht, e1, e2, htail⟩
      · refine Or.inl ⟨e1, e2, ?_⟩
        intro j hj hjt
        cases j with
        | zero =>
          simp only [List.getD_cons_zero] at hjt ⊢
          exact fun hle => hcond ⟨hjt, hle⟩
        | succ k =>
          exact hall k (by simpa using hj) (by simpa using hjt)
      · refine Or.inr ⟨j + 1, by simpa using hj, by simpa using ht, ?_, ?_, ?_⟩
        · rw [e1]
          congr 1
          omega
        · rw [e2]; simp
        · intro k hk hkj hkt
          match k, hkj with
          | k + 1, _ =>
            exact htail k (by simpa using hk) (by omega) (by simpa using hkt)

theorem family_transfer_score_le_three (f : QueueFamily) :
    family_transfer_score f ≤ 3 := by
  unfold family_transfer_score
  split_ifs <;> norm_num

theorem prod_snd_fst_ite_eq {c : Prop} [Decidable c] {A B C : Type}
    {x y : A × B × C} {q : B} (hx : x.2.1 = q) (hy : y.2.1 = q) :
    (if c then x else y).2.1 = q := by
  by_cases h : c
  · rw [if_pos h]; exact hx
  · rw [if_neg h]; exact hy

/-- On every path past the two early rejections, the prober returns the
queue-family info produced by the scan loop. -/
theorem meets_requirements_queue_info (d : PhysicalDevice) (sv : Bool)
    (req : vulkan_physical_device_requirements)
    (old : vulkan_swapchain_support_info)
    (hdisc : (req.discrete_gpu &&
      !(d.deviceType == VK_PHYSICAL_DEVICE_TYPE_DISCRETE_GPU)) = false)
    (hne : d.queue_families ≠ []) :
    (physical_device_meets_requirements d sv req old).2.1
      = (scan_queue_families req.present sv 0 d.queue_families
          ⟨-1, -1, -1, -1⟩ 255).1 := by
  unfold physical_device_meets_requirements
  dsimp only
  rw [if_neg (by rw [hdisc]; exact Bool.false_ne_true)]
  rw [if_neg (by simp only [beq_iff_eq, List.length_eq_zero]; exact hne)]
  rcases hre : req.device_extension_names with _ | exts <;>
    simp only [hre] <;>
    repeat' (first | rfl | apply prod_snd_fst_ite_eq)

/-- C2 (amended): when the candidate is not rejected before the queue-family
scan and some family supports transfer, the prober chooses a transfer-capable
family of minimal specialization score, and among the families attaining that
minimal score it chooses the one with the highest index (the last scanned),
because the comparison against the running minimum uses less-or-equal. -/
theorem prober_transfer_family_choice (d : PhysicalDevice) (sv : Bool)
    (req : vulkan_physical_device_requirements)
    (old : vulkan_swapchain_support_info)
    (hreq : req.transfer = true)
    (hdisc : (req.discrete_gpu &&
      !(d.deviceType == VK_PHYSICAL_DEVICE_TYPE_DISCRETE_GPU)) = false)
    (hex : ∃ j, j < d.queue_families.length ∧
      supports_transfer (d.queue_families.getD j default_family) = true) :
    ∃ t, t < d.queue_families.length ∧
      (physical_device_meets_requirements d sv req old).2.1.transfer_family_index
        = (t : Int) ∧
      supports_transfer (d.queue_families.getD t default_family) = true ∧
      (∀ j, j < d.queue_families.length →
        supports_transfer (d.queue_families.getD j default_family) = true →
        family_transfer_score (d.queue_families.getD t default_family) ≤
          family_transfer_score (d.queue_families.getD j default_family)) ∧
      (∀ j, j < d.queue_families.length →
        supports_transfer (d.queue_families.getD j default_family) = true →
        family_transfer_score (d.queue_families.getD j default_family) =
          family_transfer_score (d.queue_families.getD t default_family) →
        j ≤ t) := by
  obtain ⟨j0, hj0, hj0t⟩ := hex
  have hne : d.queue_families ≠ [] := by
    intro h
    rw [h] at hj0
    simp at hj0
  have hqi := meets_requirements_queue_info d sv req old hdisc hne
  have hpair := scan_families_transfer req.present sv d.queue_families 0
    ⟨-1, -1, -1, -1⟩ 255
  have hidx : (physical_device_meets_requirements d sv req old).2.1.transfer_family_index
      = (transfer_scan d.queue_families 0 (-1) 255).1 := by
    rw [hqi]
    exact congrArg Prod.fst hpair
  have hmin := transfer_scan_min_le d.queue_families 0 (-1) 255
  rcases transfer_scan_characterization d.queue_families 0 (-1) 255 with
    ⟨e1, e2, hall⟩ | ⟨t, htl, htt, e1, e2, htail⟩
  · exact absurd ((family_transfer_score_le_three
      (d.queue_families.getD j0 default_family)).trans (by norm_num))
      (hall j0 hj0 hj0t)
  · refine ⟨t, htl, ?_, htt, ?_, ?_⟩
    · rw [hidx, e1]
      norm_num
    · intro j hj hjt
      have h := hmin.2 j hj hjt
      rw [e2] at h
      exact h
    · intro j hj hjt heq
      by_contra hgt
      push_neg at hgt
      exact htail j hj hgt hjt (le_of_eq (heq.trans e2.symm))

/-- C2 counterexample: a candidate with two transfer-only queue families of
equal (and minimal) specialization score: the prober picks family 1, not the
lowest-index family 0, because an equal score overwrites the tracked
family. -/
theorem prober_transfer_tie_picks_highest_index :
    (physical_device_meets_requirements c2_candidate true
        default_device_requirements empty_support).2.1.transfer_family_index
      = 1 ∧
    supports_transfer (c2_candidate.queue_families.getD 0 default_family)
      = true ∧
    family_transfer_score (c2_candidate.queue_families.getD 0 default_family)
      = family_transfer_score (c2_candidate.queue_families.getD 1 default_family) := by
  decide

/-- C2 witness: on the two-transfer-family candidate the amended claim
produces the promised minimal-score, highest-index choice. -/
theorem prober_transfer_family_choice_witness :
    ∃ t, t < c2_candidate.queue_families.length ∧
      (physical_device_meets_requirements c2_candidate true
          default_device_requirements empty_support).2.1.transfer_family_index
        = (t : Int) ∧
      supports_transfer (c2_candidate.queue_families.getD t default_family)
        = true ∧
      (∀ j, j < c2_candidate.queue_families.length →
        supports_transfer (c2_candidate.queue_families.getD j default_family)
          = true →
        family_transfer_score (c2_candidate.queue_families.getD t default_family) ≤
          family_transfer_score (c2_candidate.queue_families.getD j default_family)) ∧
      (∀ j, j < c2_candidate.queue_families.length →
        supports_transfer (c2_candidate.queue_families.getD j default_family)
          = true →
        family_transfer_score (c2_candidate.queue_families.getD j default_family) =
          family_transfer_score (c2_candidate.queue_families.getD t default_family) →
        j ≤ t) :=
  prober_transfer_family_choice c2_candidate true default_device_requirements
    empty_support (by decide) (by decide) ⟨0, by decide, by decide⟩

/-- C1 (amended): the Device Selector selects the first candidate the
Capability Prober passes and stops scanning there; when no candidate passes,
selection returns failure and leaves the physical handle, the three queue
indices, and the cached properties, features and memory unchanged — the
swapchain-support field, however, is written through by the per-candidate
probe and may be overwritten even on failure. -/
theorem select_physical_device_spec (sv : Bool) (cands : List PhysicalDevice)
    (dev : vulkan_device) :
    (∀ i, i < cands.length →
      device_passes sv (cands.getD i default_candidate) = true →
      (∀ j, j < i → device_passes sv (cands.getD j default_candidate) = false) →
      (select_physical_device sv cands dev).1 = true ∧
      (select_physical_device sv cands dev).2.1.physical_device
        = some (cands.getD i default_candidate) ∧
      (select_physical_device sv cands dev).2.2
        = List.replicate (i + 1) Action.probe_device) ∧
    ((∀ c ∈ cands, device_passes sv c = false) →
      (select_physical_device sv cands dev).1 = false ∧
      (select_physical_device sv cands dev).2.1.physical_device
        = dev.physical_device ∧
      (select_physical_device sv cands dev).2.1.graphics_queue_index
        = dev.graphics_queue_index ∧
      (select_physical_device sv cands dev).2.1.present_queue_index
        = dev.present_queue_index ∧
      (select_physical_device sv cands dev).2.1.transfer_queue_index
        = dev.transfer_queue_index ∧
      (select_physical_device sv cands dev).2.1.properties = dev.properties ∧
      (select_physical_device sv cands dev).2.1.features = dev.features ∧
      (select_physical_device sv cands dev).2.1.memory = dev.memory) := by
  constructor
  · intro i hi hpass hbefore
    unfold select_physical_device
    rw [if_neg (by simp only [beq_iff_eq]; omega)]
    exact select_loop_first_pass sv cands i dev hi hpass hbefore
  · intro hall
    unfold select_physical_device
    by_cases hlen : (cands.length == 0) = true
    · rw [if_pos hlen]
      exact ⟨rfl, rfl, rfl, rfl, rfl, rfl, rfl, rfl⟩
    · rw [if_neg hlen]
      have h := select_loop_no_pass sv cands dev hall
      exact ⟨h.1, h.2.1, h.2.2.1, h.2.2.2.1, h.2.2.2.2.1, h.2.2.2.2.2.1,
        h.2.2.2.2.2.2.1, h.2.2.2.2.2.2.2.1⟩

/-- C1 counterexample: a single candidate that reaches the swapchain-support
probe and is rejected for offering zero surface formats makes selection fail,
yet the swapchain-support field of the Device record has been overwritten by
the probe, so not every Device field is unmutated after a failed selection. -/
theorem select_physical_device_mutates_support_on_failure :
    (select_physical_device true [bad_candidate] test_device).1 = false ∧
    (select_physical_device true [bad_candidate] test_device).2.1.swapchain_support
      ≠ test_device.swapchain_support := by
  decide

/-- C1 witness: with a failing candidate followed by a passing one, selection
succeeds, caches the second candidate, and probes exactly two candidates. -/
theorem select_physical_device_spec_witness :
    (select_physical_device true [bad_candidate, good_candidate] test_device).1
      = true ∧
    (select_physical_device true [bad_candidate, good_candidate]
        test_device).2.1.physical_device = some good_candidate ∧
    (select_physical_device true [bad_candidate, good_candidate]
        test_device).2.2 = List.replicate 2 Action.probe_device := by
  have h := (select_physical_device_spec true [bad_candidate, good_candidate]
    test_device).1 1 (by decide) (by decide)
    (by
      intro j hj
      interval_cases j
      decide)
  exact h

/-- The extent negotiated by create is choose_swapchain_extent regardless of
the driver outcome, since the extent is written before the driver call. -/
theorem swapchain_create_extent_eq (support : vulkan_swapchain_support_info)
    (width height : Nat) (driver_result : Int) (sc0 : vulkan_swapchain) :
    (vulkan_swapchain_create support width height driver_result sc0).1.extent
      = choose_swapchain_extent support.capabilities width height := by
  unfold vulkan_swapchain_create
  split <;> rfl

/-- The image count negotiated by create is choose_swapchain_image_count
regardless of the driver outcome. -/
theorem swapchain_create_image_count_eq (support : vulkan_swapchain_support_info)
    (width height : Nat) (driver_result : Int) (sc0 : vulkan_swapchain) :
    (vulkan_swapchain_create support width height driver_result sc0).1.image_count
      = choose_swapchain_image_count support.capabilities := by
  unfold vulkan_swapchain_create
  split <;> rfl

/-- C5: swapchain Create uses the surface current extent whenever it is not
the undefined sentinel; when it is the sentinel, each coordinate of the
requested size is returned unchanged if it lies within
[minImageExtent, maxImageExtent] and is otherwise clamped to the nearest
bound of that interval. -/
theorem swapchain_create_extent_spec (support : vulkan_swapchain_support_info)
    (width height : Nat) (driver_result : Int) (sc0 : vulkan_swapchain)
    (hw : support.capabilities.minImageExtent.width ≤
      support.capabilities.maxImageExtent.width)
    (hh : support.capabilities.minImageExtent.height ≤
      support.capabilities.maxImageExtent.height) :
    (support.capabilities.currentExtent.width ≠ UINT32_MAX →
      (vulkan_swapchain_create support width height driver_result sc0).1.extent
        = support.capabilities.currentExtent) ∧
    (support.capabilities.currentExtent.width = UINT32_MAX →
      ((support.capabilities.minImageExtent.width ≤ width ∧
          width ≤ support.capabilities.maxImageExtent.width →
        (vulkan_swapchain_create support width height driver_result sc0).1.extent.width
          = width) ∧
       (width < support.capabilities.minImageExtent.width →
        (vulkan_swapchain_create support width height driver_result sc0).1.extent.width
          = support.capabilities.minImageExtent.width) ∧
       (support.capabilities.maxImageExtent.width < width →
        (vulkan_swapchain_create support width height driver_result sc0).1.extent.width
          = support.capabilities.maxImageExtent.width) ∧
       (support.capabilities.minImageExtent.height ≤ height ∧
          height ≤ support.capabilities.maxImageExtent.height →
        (vulkan_swapchain_create support width height driver_result sc0).1.extent.height
          = height) ∧
       (height < support.capabilities.minImageExtent.height →
        (vulkan_swapchain_create support width height driver_result sc0).1.extent.height
          = support.capabilities.minImageExtent.height) ∧
       (support.capabilities.maxImageExtent.height < height →
        (vulkan_swapchain_create support width height driver_result sc0).1.extent.height
          = support.capabilities.maxImageExtent.height))) := by
  rw [swapchain_create_extent_eq]
  unfold choose_swapchain_extent
  constructor
  · intro hcur
    rw [if_pos hcur]
  · intro hcur
    rw [if_neg (by simp [hcur])]
    refine ⟨?_, ?_, ?_, ?_, ?_, ?_⟩ <;> intro h <;> simp only [] <;>
      split_ifs <;> omega

/-- C5 witness: with the sentinel capabilities, width 150 stays and
height 250 clamps down to 200. -/
theorem swapchain_create_extent_spec_witness :
    (vulkan_swapchain_create sentinel_support 150 250 0 test_swapchain).1.extent.width
      = 150 ∧
    (vulkan_swapchain_create sentinel_support 150 250 0 test_swapchain).1.extent.height
      = 200 := by
  have h := (swapchain_create_extent_spec sentinel_support 150 250 0 test_swapchain
    (by decide) (by decide)).2 (by decide)
  exact ⟨h.1 (by decide), h.2.2.2.2.2 (by decide)⟩

/-- C6: when maxImageCount is positive (and at least minImageCount, as the
driver guarantees), the negotiated image count lies in
[minImageCount, maxImageCount]; when maxImageCount is zero (unbounded) it is
at least minImageCount. -/
theorem swapchain_create_image_count_spec
    (support : vulkan_swapchain_support_info) (width height : Nat)
    (driver_result : Int) (sc0 : vulkan_swapchain)
    (hcap : support.capabilities.maxImageCount > 0 →
      support.capabilities.minImageCount ≤ support.capabilities.maxImageCount) :
    (support.capabilities.maxImageCount > 0 →
      support.capabilities.minImageCount ≤
        (vulkan_swapchain_create support width height driver_result sc0).1.image_count ∧
      (vulkan_swapchain_create support width height driver_result sc0).1.image_count ≤
        support.capabilities.maxImageCount) ∧
    (support.capabilities.maxImageCount = 0 →
      support.capabilities.minImageCount ≤
        (vulkan_swapchain_create support width height driver_result sc0).1.image_count) := by
  rw [swapchain_create_image_count_eq]
  unfold choose_swapchain_image_count
  dsimp only
  constructor
  · intro hpos
    have hle := hcap hpos
    split_ifs with hcond
    · simp only [Bool.and_eq_true, decide_eq_true_eq] at hcond
      omega
    · simp only [Bool.and_eq_true, decide_eq_true_eq, not_and_or] at hcond
      omega
  · intro hzero
    split_ifs with hcond
    · simp only [Bool.and_eq_true, decide_eq_true_eq] at hcond
      omega
    · omega

/-- C6 witness: for the sentinel capabilities (min 2, max 8) the negotiated
image count is 3, inside [2, 8]. -/
theorem swapchain_create_image_count_spec_witness :
    2 ≤ (vulkan_swapchain_create sentinel_support 150 250 0 test_swapchain).1.image_count ∧
    (vulkan_swapchain_create sentinel_support 150 250 0 test_swapchain).1.image_count ≤ 8 :=
  (swapchain_create_image_count_spec sentinel_support 150 250 0 test_swapchain
    (by decide)).1 (by decide)

/-- C3 counterexample: the command-buffer operations accept illegal
transitions instead of failing: Begin on a NOT_ALLOCATED buffer transitions
it to RECORDING, a second End on an already ended buffer sets READY again,
and Reset succeeds from RECORDING, a state not reached via End or
MarkSubmitted. -/
theorem command_buffer_illegal_transitions_accepted :
    (command_buffer_begin ⟨none, vulkan_command_buffer_state.not_allocated⟩
        false false false).1.state = vulkan_command_buffer_state.recording ∧
    (vulkan_command_buffer_end (vulkan_command_buffer_end
        ⟨some 1, vulkan_command_buffer_state.recording⟩)).state
      = vulkan_command_buffer_state.ready ∧
    (vulkan_command_buffer_reset ⟨some 1, vulkan_command_buffer_state.recording⟩).state
      = vulkan_command_buffer_state.ready :=
  ⟨rfl, rfl, rfl⟩

/-- C3 amended: Begin, End and Reset never consult the current state tag:
from any starting state, Begin sets RECORDING, End sets READY and Reset sets
READY, with no failure or assertion path; legal sequencing is a caller
obligation documented in comments but not enforced. -/
theorem command_buffer_transitions_unchecked (cb : vulkan_command_buffer)
    (is_single_use is_render_pass_continue is_simultaneous_use : Bool) :
    (command_buffer_begin cb is_single_use is_render_pass_continue
        is_simultaneous_use).1.state = vulkan_command_buffer_state.recording ∧
    (vulkan_command_buffer_end cb).state = vulkan_command_buffer_state.ready ∧
    (vulkan_command_buffer_reset cb).state = vulkan_command_buffer_state.ready :=
  ⟨rfl, rfl, rfl⟩

/-- C4: with graphics family 0 and present and transfer sharing family 1,
the queue-create index list is [0, 1, 1]: family 1 appears twice because the
deduplication only compares present and transfer against graphics. -/
theorem device_queue_indices_duplicate_family :
    device_queue_indices 0 1 1 = [0, 1, 1] ∧
    (device_queue_indices 0 1 1).count 1 = 2 := by
  decide

/-- C9: VK_CHECK never aborts, asserts or forces an early return: for every
result code it continues, and it appends exactly one ERROR entry carrying the
numeric code, file and line when the result is not VK_SUCCESS, and nothing
otherwise. -/
theorem vk_check_continues_and_logs (result : Int) (file : String) (line : Nat)
    (log : List LogEntry) :
    (vk_check result file line log).1 = ControlEffect.continue_ ∧
    (vk_check result file line log).2 =
      (if result ≠ VK_SUCCESS then
        log ++ [{ level := LogLevel.error, msg := "Vulkan error", code := result,
                  file := file, line := line }]
       else log) := by
  unfold vk_check
  split <;> exact ⟨rfl, rfl⟩

/-- C10: the resize notification writes exactly the framebuffer width, the
framebuffer height and the recreating_swapchain flag, leaves every other
context field unchanged, and performs no driver call. -/
theorem on_resized_only_touches_size_and_flag (ctx : vulkan_context)
    (width height : Nat) :
    (vulkan_renderer_backend_on_resized ctx width height).1.framebuffer_width = width ∧
    (vulkan_renderer_backend_on_resized ctx width height).1.framebuffer_height = height ∧
    (vulkan_renderer_backend_on_resized ctx width height).1.recreating_swapchain = true ∧
    (vulkan_renderer_backend_on_resized ctx width height).1.instance_handle
      = ctx.instance_handle ∧
    (vulkan_renderer_backend_on_resized ctx width height).1.surface = ctx.surface ∧
    (vulkan_renderer_backend_on_resized ctx width height).1.device = ctx.device ∧
    (vulkan_renderer_backend_on_resized ctx width height).1.swapchain = ctx.swapchain ∧
    (vulkan_renderer_backend_on_resized ctx width height).1.main_renderpass
      = ctx.main_renderpass ∧
    (vulkan_renderer_backend_on_resized ctx width height).1.graphics_command_buffers
      = ctx.graphics_command_buffers ∧
    (vulkan_renderer_backend_on_resized ctx width height).1.image_index
      = ctx.image_index ∧
    (vulkan_renderer_backend_on_resized ctx width height).1.current_frame
      = ctx.current_frame ∧
    (vulkan_renderer_backend_on_resized ctx width height).2 = [] :=
  ⟨rfl, rfl, rfl, rfl, rfl, rfl, rfl, rfl, rfl, rfl, rfl, rfl⟩

/-- C8: in a diagnostic build whose enumerated available-layer list lacks a
required validation layer, Bootstrap fails with a FATAL log entry, without
creating the instance and without probing any physical accelerator. -/
theorem backend_initialize_missing_layer_fatal (inp : InitInputs)
    (ctx : vulkan_context)
    (hdbg : inp.debug_build = true)
    (hmiss : ∃ l ∈ required_validation_layer_names,
      inp.available_layers.contains l = false) :
    (vulkan_renderer_backend_bootstrap inp ctx).1 = false ∧
    (∃ e ∈ (vulkan_renderer_backend_bootstrap inp ctx).2.2.1,
      e.level = LogLevel.fatal) ∧
    Action.create_instance ∉ (vulkan_renderer_backend_bootstrap inp ctx).2.2.2 ∧
    Action.probe_device ∉ (vulkan_renderer_backend_bootstrap inp ctx).2.2.2 := by
  have hcond : (inp.debug_build && required_validation_layer_names.any
      (fun l => !(inp.available_layers.contains l))) = true := by
    rw [hdbg, Bool.true_and, List.any_eq_true]
    obtain ⟨l, hl, hnot⟩ := hmiss
    exact ⟨l, hl, by rw [hnot]; rfl⟩
  unfold vulkan_renderer_backend_bootstrap
  rw [if_pos hcond]
  exact ⟨rfl,
    ⟨{ level := LogLevel.fatal, msg := "Required validation layer is missing",
       code := 0, file := "", line := 0 }, by simp, rfl⟩,
    (by decide : Action.create_instance ∉ [Action.enumerate_instance_layers]),
    (by decide : Action.probe_device ∉ [Action.enumerate_instance_layers])⟩

/-- C8 witness: with an empty available-layer list in a diagnostic build,
initialization fails fatally with no instance creation and no probing. -/
theorem backend_initialize_missing_layer_fatal_witness :
    (vulkan_renderer_backend_bootstrap c8_inputs test_context).1 = false ∧
    (∃ e ∈ (vulkan_renderer_backend_bootstrap c8_inputs test_context).2.2.1,
      e.level = LogLevel.fatal) ∧
    Action.create_instance
      ∉ (vulkan_renderer_backend_bootstrap c8_inputs test_context).2.2.2 ∧
    Action.probe_device
      ∉ (vulkan_renderer_backend_bootstrap c8_inputs test_context).2.2.2 :=
  backend_initialize_missing_layer_fatal c8_inputs test_context (by decide)
    ⟨"VK_LAYER_KHRONOS_validation", by decide, by decide⟩

/-- C7: when every driver step succeeds except the swapchain create call,
the failure is logged at FATAL severity, yet backend initialization continues
past it (the create function is void and its caller checks nothing) and
returns TRUE to its caller, leaving the swapchain handle unset.  This
exhibits the divergence from the documented fatal-abort behaviour. -/
theorem backend_initialize_swapchain_failure_still_succeeds :
    (vulkan_renderer_backend_bootstrap c7_inputs test_context).1 = true ∧
    (∃ e ∈ (vulkan_renderer_backend_bootstrap c7_inputs test_context).2.2.1,
      e.level = LogLevel.fatal ∧
      e.msg = "Failed to create Vulkan swapchain.") ∧
    (vulkan_renderer_backend_bootstrap
        c7_inputs test_context).2.1.swapchain.swapchain = none := by
  decide

end Kengine
